import Mathlib

/-!
Shallow embedding of the overlay-utility core (src/src-tauri/src/lib.rs):
the overlay visibility / input-transparency state machine and the
model-discovery-and-fallback request pipeline, with theorems checking the
specification's claims against it.

External effects (OS window calls, HTTP requests, the environment) are
modelled as explicit oracle inputs; the request pipeline additionally
returns the list of HTTP requests it issued, so that "no network call is
made" style properties are statable.
-/

namespace Strratumm

/-! ## Overlay controller (lines 7–79 of lib.rs) -/

/-- Outcomes of the fallible OS window calls used by `toggle_overlay` and
`set_click_through_internal`: `window.show()`, `window.set_focus()`,
`window.hide()` and `window.hwnd()`, each of which either succeeds or
yields an error string. -/
structure WindowCalls where
  showResult : Except String Unit
  focusResult : Except String Unit
  hideResult : Except String Unit
  hwndResult : Except String Unit
deriving Repr

/-- State touched by the overlay controller: the `is_visible` flag stored in
`OverlayState`, together with the window's extended style bits (the value
`GetWindowLongPtrW(hwnd, GWL_EXSTYLE)` would read), kept as a 64-bit
pattern in a `Nat`. -/
structure OverlaySt where
  is_visible : Bool
  ex_style : Nat
deriving DecidableEq, Repr

/-- Bit `WS_EX_LAYERED = 0x00080000` (bit 19). -/
def WS_EX_LAYERED : Nat := 0x00080000

/-- Bit `WS_EX_TRANSPARENT = 0x00000020` (bit 5). -/
def WS_EX_TRANSPARENT : Nat := 0x00000020

/-- Mask of all 64 bits, used to model two's-complement negation `!x` on
an `isize`: `!x = ISIZE_MASK ^^^ x` on bit patterns. -/
def ISIZE_MASK : Nat := 2 ^ 64 - 1

/-- Style computation of `set_click_through_internal` (lines 63–75):
`enabled` yields `ex_style | (WS_EX_LAYERED | WS_EX_TRANSPARENT)`,
otherwise `ex_style & !WS_EX_TRANSPARENT`. -/
def set_click_through_internal (enabled : Bool) (ex_style : Nat) : Nat :=
  if enabled then
    ex_style ||| (WS_EX_LAYERED ||| WS_EX_TRANSPARENT)
  else
    ex_style &&& (ISIZE_MASK ^^^ WS_EX_TRANSPARENT)

/-- The `set_click_through_internal` call as `toggle_overlay` performs it:
`window.hwnd()` may fail (surfaced as the error string); on success the
new style bits are written. -/
def set_click_through_call (calls : WindowCalls) (enabled : Bool)
    (ex_style : Nat) : Except String Nat :=
  match calls.hwndResult with
  | .error e => .error e
  | .ok _ => .ok (set_click_through_internal enabled ex_style)

/-- The `toggle_overlay` command (lines 12–33). `windowAvailable` models
whether `app.get_webview_window("main")` finds the window. The flag is
flipped first; then the show/focus/style calls (new state visible) or the
hide call (new state hidden) run, each propagating its error. Returns the
command's result together with the final `OverlaySt`. -/
def toggle_overlay (windowAvailable : Bool) (calls : WindowCalls)
    (s : OverlaySt) : Except String Bool × OverlaySt :=
  if !windowAvailable then
    (.error "Failed to get main window", s)
  else
    let is_visible := !s.is_visible
    if is_visible then
      match calls.showResult with
      | .error e => (.error e, { s with is_visible := is_visible })
      | .ok _ =>
        match calls.focusResult with
        | .error e => (.error e, { s with is_visible := is_visible })
        | .ok _ =>
          match set_click_through_call calls false s.ex_style with
          | .error e => (.error e, { s with is_visible := is_visible })
          | .ok newStyle => (.ok is_visible, ⟨is_visible, newStyle⟩)
    else
      match calls.hideResult with
      | .error e => (.error e, { s with is_visible := is_visible })
      | .ok _ => (.ok is_visible, { s with is_visible := is_visible })

/-- Window-call oracle in which every OS call succeeds. -/
def okCalls : WindowCalls := ⟨.ok (), .ok (), .ok (), .ok ()⟩

/-- Window-call oracle in which `window.show()` fails. -/
def showFails : WindowCalls := ⟨.error "show failed", .ok (), .ok (), .ok ()⟩

/-- Window-call oracle in which `window.hide()` fails. -/
def hideFails : WindowCalls := ⟨.ok (), .ok (), .error "hide failed", .ok ()⟩

/-! ## Strings of the request pipeline

Rust `String`/`&str` values the pipeline computes on are modelled as
`List Char`, with executable counterparts of the string operations the
source uses (`trim`, `starts_with`, `replace`, `format!` concatenation),
so that every definition kernel-evaluates on concrete inputs. -/

/-- Rust string, as its character sequence. -/
def Str := List Char
deriving DecidableEq, Repr

/-- A Lean string literal as a `Str`. -/
def str (s : String) : Str := s.data

instance : Append Str := ⟨List.append⟩

/-- Rust `s.starts_with(p)`. -/
def strStartsWith (s p : Str) : Bool := List.isPrefixOf (p : List Char) s

/-- Fuel-indexed worker for `replaceAll`; the fuel starts at the string's
length, which suffices because every step consumes at least one
character of a nonempty pattern's match or one plain character. -/
def replaceAllAux (pat rep : List Char) : Nat → List Char → List Char
  | _, [] => []
  | 0, s => s
  | fuel + 1, c :: rest =>
    if List.isPrefixOf pat (c :: rest) then
      rep ++ replaceAllAux pat rep fuel ((c :: rest).drop pat.length)
    else
      c :: replaceAllAux pat rep fuel rest

/-- Rust `s.replace(pat, rep)` for a nonempty pattern: replaces the
non-overlapping matches of `pat` left to right. -/
def replaceAll (s pat rep : Str) : Str :=
  replaceAllAux pat rep (List.length (s : List Char)) s

/-- Rust `s.trim()`: drops leading and trailing whitespace. -/
def trimStr (s : Str) : Str :=
  ((List.dropWhile Char.isWhitespace
    ((List.dropWhile Char.isWhitespace (s : List Char)).reverse)).reverse : List Char)

/-- Rust `format!("{}", n)` for the HTTP status in the API-error message. -/
def natToStr (n : Nat) : Str := (Nat.repr n).data

/-! ## Gemini API data shapes (lines 81–133 of lib.rs) -/

/-- Request shape `GeminiPart { text }`. -/
structure GeminiPart where
  text : Str
deriving DecidableEq, Repr

/-- Request shape `GeminiContent { parts }`. -/
structure GeminiContent where
  parts : List GeminiPart
deriving DecidableEq, Repr

/-- Request shape `GeminiRequest { contents }`. -/
structure GeminiRequest where
  contents : List GeminiContent
deriving DecidableEq, Repr

/-- Response shape `GeminiPartResponse { text: Option<String> }`. -/
structure GeminiPartResponse where
  text : Option Str
deriving DecidableEq, Repr

/-- Response shape `GeminiContentResponse { parts: Option<Vec<..>> }`. -/
structure GeminiContentResponse where
  parts : Option (List GeminiPartResponse)
deriving DecidableEq, Repr

/-- Response shape `GeminiCandidate { content: Option<..> }`. -/
structure GeminiCandidate where
  content : Option GeminiContentResponse
deriving DecidableEq, Repr

/-- Response shape `GeminiError { message }`. -/
structure GeminiError where
  message : Str
deriving DecidableEq, Repr

/-- Response shape `GeminiResponse { candidates: Option<..>, error: Option<..> }`. -/
structure GeminiResponse where
  candidates : Option (List GeminiCandidate)
  error : Option GeminiError
deriving DecidableEq, Repr

/-- Listing shape `ModelInfo { name, supportedGenerationMethods }`. -/
structure ModelInfo where
  name : Str
  supported_generation_methods : Option (List Str)
deriving DecidableEq, Repr

/-- Listing shape `ModelsResponse { models: Option<Vec<ModelInfo>> }`. -/
structure ModelsResponse where
  models : Option (List ModelInfo)
deriving DecidableEq, Repr

/-! ## Model resolution (`get_best_available_model`, lines 135–182) -/

/-- Outcome of the listing GET: a transport-level failure with the error's
rendering, or an HTTP response with its status code and — read only when
the status is a success — the result of parsing the body into
`ModelsResponse` (`Except.error` renders the parse failure). -/
inductive ListingOutcome where
  | netErr (msg : Str)
  | resp (status : Nat) (body : Except Str ModelsResponse)

/-- Reqwest `status.is_success()`: 2xx. -/
def statusIsSuccess (status : Nat) : Bool := 200 ≤ status && status < 300

/-- Generation-capability filter and namespace strip (lines 153–157): keep
models whose `supportedGenerationMethods` contains `"generateContent"`,
then strip every `"models/"` occurrence from the name. -/
def modelCandidates (models : List ModelInfo) : List Str :=
  (models.filter fun m =>
    match m.supported_generation_methods with
    | some methods => methods.contains (str "generateContent")
    | none => false).map fun m => replaceAll m.name (str "models/") (str "")

/-- The static preference list (lines 162–168). -/
def preferences : List Str :=
  [str "gemini-1.5-flash-latest",
   str "gemini-1.5-flash",
   str "gemini-1.5-flash-001",
   str "gemini-1.5-flash-002",
   str "gemini-flash-latest"]

/-- The preference walk (lines 170–176): for each preference in order, the
first candidate that starts with it wins, paired with `"v1beta"`. -/
def walkPrefs : List Str → List Str → Option (Str × Str)
  | [], _ => none
  | p :: ps, candidates =>
    match candidates.find? fun c => strStartsWith c p with
    | some found => some (found, str "v1beta")
    | none => walkPrefs ps candidates

/-- The `get_best_available_model` function (lines 135–182) over the
listing-call oracle: a transport error propagates (`map_err(..)?`), a
non-success status falls back to `("gemini-pro", "v1")`, a body-parse
error propagates (`map_err(..)?`), a preference hit returns the found
candidate with `"v1beta"`, and everything else falls back to
`("gemini-1.5-flash", "v1beta")`. -/
def get_best_available_model (outcome : ListingOutcome) :
    Except Str (Str × Str) :=
  match outcome with
  | .netErr msg => .error msg
  | .resp status body =>
    if !(statusIsSuccess status) then
      .ok (str "gemini-pro", str "v1")
    else
      match body with
      | .error e => .error e
      | .ok data =>
        match data.models with
        | some models =>
          match walkPrefs preferences (modelCandidates models) with
          | some found => .ok found
          | none => .ok (str "gemini-1.5-flash", str "v1beta")
        | none => .ok (str "gemini-1.5-flash", str "v1beta")

/-! ## Prompt relay (`send_to_ai`, lines 184–254) -/

/-- Outcome of the generation POST: a transport-level failure with the
error's rendering, or an HTTP response with its status code, the body as
text (`none` when `res.text()` fails; read only on a non-success status)
and the body parsed into `GeminiResponse` (read only on success,
`Except.error` rendering the parse failure). -/
inductive GenOutcome where
  | netErr (msg : Str)
  | resp (status : Nat) (textBody : Option Str) (jsonBody : Except Str GeminiResponse)

/-- An HTTP request the pipeline issued: the listing GET or the
generation POST with its JSON body. -/
inductive Request where
  | get (url : Str)
  | post (url : Str) (body : GeminiRequest)
deriving DecidableEq, Repr

/-- External world of one `send_to_ai` call: the `GEMINI_API_KEY`
environment value (`none` when the variable is unset) and the two HTTP
oracles. -/
structure SendWorld where
  env : Option Str
  listing : ListingOutcome
  gen : GenOutcome

/-- Extraction step of `send_to_ai` (lines 235–253): a body-level error
object wins (`Gemini API Error: ..`); otherwise the optional chain
candidates → first candidate → content → parts → first part → text is
descended, any absent link failing with the no-valid-text message. -/
def extractAnswerText (response_json : GeminiResponse) : Except Str Str :=
  match response_json.error with
  | some error => .error (str "Gemini API Error: " ++ error.message)
  | none =>
    match response_json.candidates with
    | some (candidate :: _) =>
      match candidate.content with
      | some content =>
        match content.parts with
        | some (part :: _) =>
          match part.text with
          | some text => .ok text
          | none => .error (str "No valid response text found in API response.")
        | _ => .error (str "No valid response text found in API response.")
      | none => .error (str "No valid response text found in API response.")
    | _ => .error (str "No valid response text found in API response.")

/-- The `send_to_ai` command (lines 184–254). Returns the command's result
together with the list of HTTP requests issued, in order. A missing
credential fails immediately with no request; otherwise the key is
trimmed, the model is resolved (through `get_best_available_model` and
its listing GET exactly when the alias is `"gemini"`, the argument itself
otherwise), and the generation POST is issued and its response handled as
in the source. -/
def send_to_ai (prompt model : Str) (w : SendWorld) :
    Except Str Str × List Request :=
  match w.env with
  | none =>
    (.error (str "GEMINI_API_KEY environment variable not set. Please check your .env file."), [])
  | some keyValue =>
    let api_key := trimStr keyValue
    let (resolved, trace0) :=
      if model = str "gemini" then
        (get_best_available_model w.listing,
         [Request.get (str "https://generativelanguage.googleapis.com/v1beta/models?key=" ++ api_key)])
      else
        (Except.ok (model, str "v1beta"), [])
    match resolved with
    | .error e => (.error e, trace0)
    | .ok (model_name, api_version) =>
      let url := str "https://generativelanguage.googleapis.com/" ++ api_version
        ++ str "/models/" ++ model_name ++ str ":generateContent?key=" ++ api_key
      let request_body : GeminiRequest := ⟨[⟨[⟨prompt⟩]⟩]⟩
      let trace := trace0 ++ [Request.post url request_body]
      match w.gen with
      | .netErr msg => (.error (str "Network request failed: " ++ msg), trace)
      | .resp status textBody jsonBody =>
        if !(statusIsSuccess status) then
          let error_text := textBody.getD (str "Could not read error body")
          (.error (str "API Error (" ++ natToStr status ++ str "): " ++ error_text), trace)
        else
          match jsonBody with
          | .error e => (.error (str "Failed to parse response: " ++ e), trace)
          | .ok response_json => (extractAnswerText response_json, trace)

end Strratumm

/-! ## Theorems checking the specification's claims -/

namespace Strratumm

/-- C2: the claim states that a failed OS-level show/hide call leaves the
visibility flag unchanged. The code flips the flag before issuing the
call, so after a failed `show` from the hidden state the flag is `true`,
and after a failed `hide` from the visible state it is `false` — the flag
diverges from the last successful operation, the defect the spec's design
notes flag. -/
theorem toggle_flag_flips_despite_failed_os_call :
    toggle_overlay true showFails ⟨false, 0⟩ = (.error "show failed", ⟨true, 0⟩) ∧
    toggle_overlay true hideFails ⟨true, 0⟩ = (.error "hide failed", ⟨false, 0⟩) :=
  ⟨rfl, rfl⟩

/-- C7: from any starting state, two consecutive toggles in which every OS
call succeeds restore the visibility flag, the second toggle returns the
original value, and the TRANSPARENT bit (input transparency) ends
cleared, because every show path disables click-through and the hide
path leaves the style untouched. -/
theorem toggle_involution (s : OverlaySt) :
    (toggle_overlay true okCalls (toggle_overlay true okCalls s).2).2.is_visible = s.is_visible ∧
    (toggle_overlay true okCalls (toggle_overlay true okCalls s).2).1 = .ok s.is_visible ∧
    (toggle_overlay true okCalls (toggle_overlay true okCalls s).2).2.ex_style.testBit 5 = false := by
  obtain ⟨v, ex⟩ := s
  have hbit : (ISIZE_MASK ^^^ WS_EX_TRANSPARENT).testBit 5 = false := by decide
  cases v <;>
    simp [toggle_overlay, okCalls, set_click_through_call, set_click_through_internal,
      Nat.testBit_land, hbit]

/-- C8: on any current 64-bit extended-style pattern, enabling
click-through sets exactly the LAYERED (19) and TRANSPARENT (5) bits and
leaves every other bit unchanged; disabling clears exactly TRANSPARENT;
in every produced pattern TRANSPARENT implies LAYERED; and an
enable-then-disable round trip leaves TRANSPARENT cleared, LAYERED set
and all other bits as they were. -/
theorem set_click_through_bit_semantics (ex_style : Nat) (h : ex_style < 2 ^ 64) :
    (∀ i, (set_click_through_internal true ex_style).testBit i
        = (ex_style.testBit i || decide (i = 19) || decide (i = 5))) ∧
    (∀ i, (set_click_through_internal false ex_style).testBit i
        = (ex_style.testBit i && !(decide (i = 5)))) ∧
    (∀ enabled, (set_click_through_internal enabled ex_style).testBit 5 = true →
        (set_click_through_internal enabled ex_style).testBit 19 = true) ∧
    (∀ i, (set_click_through_internal false (set_click_through_internal true ex_style)).testBit i
        = (if i = 5 then false else if i = 19 then true else ex_style.testBit i)) := by
  have hL : WS_EX_LAYERED = 2 ^ 19 := by norm_num [WS_EX_LAYERED]
  have hT : WS_EX_TRANSPARENT = 2 ^ 5 := by norm_num [WS_EX_TRANSPARENT]
  have hM : ISIZE_MASK = 2 ^ 64 - 1 := by norm_num [ISIZE_MASK]
  have henb : ∀ i, (set_click_through_internal true ex_style).testBit i
      = (ex_style.testBit i || decide (i = 19) || decide (i = 5)) := by
    intro i
    simp only [set_click_through_internal, if_true, hL, hT, Nat.testBit_lor,
      Nat.testBit_two_pow]
    by_cases h19 : i = 19 <;> by_cases h5 : i = 5 <;> simp [h19, h5, eq_comm]
  have hdis : ∀ ex : Nat, ex < 2 ^ 64 →
      ∀ i, (set_click_through_internal false ex).testBit i
        = (ex.testBit i && !(decide (i = 5))) := by
    intro ex hex i
    simp only [set_click_through_internal]
    rw [if_neg (by simp), hM, hT, Nat.testBit_land, Nat.testBit_xor,
      Nat.testBit_two_pow_sub_one, Nat.testBit_two_pow]
    by_cases h64 : i < 64
    · by_cases h5 : i = 5
      · subst h5
        simp
      · have h5s : ¬(5 = i) := fun hh => h5 hh.symm
        simp [h64, h5, h5s]
    · have hz : ex.testBit i = false :=
        Nat.testBit_lt_two_pow (lt_of_lt_of_le hex
          (Nat.pow_le_pow_right (by norm_num) (le_of_not_lt h64)))
      have h5s : ¬(5 = i) := by omega
      simp [h64, hz, h5s]
  have hlt : set_click_through_internal true ex_style < 2 ^ 64 := by
    simp only [set_click_through_internal]
    rw [if_pos trivial]
    exact Nat.bitwise_lt_two_pow h (by decide)
  refine ⟨henb, hdis ex_style h, ?_, ?_⟩
  · intro enabled h5
    cases enabled
    · rw [hdis ex_style h 5] at h5
      simp at h5
    · rw [henb 19]
      simp
  · intro i
    rw [hdis _ hlt i, henb i]
    by_cases h5 : i = 5 <;> by_cases h19 : i = 19 <;> simp [h5, h19]

/-- C8 witness: the bit semantics evaluated on concrete style patterns
`0x100` and `0x120`. -/
theorem set_click_through_bit_semantics_witness :
    (set_click_through_internal true 256).testBit 19 = true ∧
    (set_click_through_internal false 288).testBit 5 = false :=
  ⟨by rw [(set_click_through_bit_semantics 256 (by norm_num)).1 19]; decide,
   by rw [(set_click_through_bit_semantics 288 (by norm_num)).2.1 5]; decide⟩

/-- C1 counterexample: a transport-level failure of the listing call makes
`get_best_available_model` return the error (via `map_err(..)?`), not a
usable model pair, so resolution does not succeed on every outcome as the
claim states. -/
theorem resolver_transport_error_returns_error :
    get_best_available_model (.netErr (str "connection refused"))
      = .error (str "connection refused") :=
  rfl

/-- C1 amended: a non-success listing status yields `("gemini-pro", "v1")`
and a parsed listing with an absent or non-matching candidate list yields
`("gemini-1.5-flash", "v1beta")`; but a transport-level failure or an
unparseable listing body propagates the underlying error instead of
degrading to a default. -/
theorem resolver_fallback_ladder :
    (∀ status body, statusIsSuccess status = false →
        get_best_available_model (.resp status body) = .ok (str "gemini-pro", str "v1")) ∧
    (∀ status, statusIsSuccess status = true →
        get_best_available_model (.resp status (.ok ⟨none⟩))
          = .ok (str "gemini-1.5-flash", str "v1beta")) ∧
    (∀ status models, statusIsSuccess status = true →
        walkPrefs preferences (modelCandidates models) = none →
        get_best_available_model (.resp status (.ok ⟨some models⟩))
          = .ok (str "gemini-1.5-flash", str "v1beta")) ∧
    (∀ msg, get_best_available_model (.netErr msg) = .error msg) ∧
    (∀ status e, statusIsSuccess status = true →
        get_best_available_model (.resp status (.error e)) = .error e) := by
  refine ⟨?_, ?_, ?_, ?_, ?_⟩
  · intro status body hs
    simp [get_best_available_model, hs]
  · intro status hs
    simp [get_best_available_model, hs]
  · intro status models hs hw
    simp [get_best_available_model, hs, hw]
  · intro msg
    rfl
  · intro status e hs
    simp [get_best_available_model, hs]

/-- C1 witness: the fallback ladder evaluated at status 500, at an empty
listing, at a listing whose only candidate matches no preference, and at
an unparseable body. -/
theorem resolver_fallback_ladder_witness :
    get_best_available_model (.resp 500 (.ok ⟨none⟩)) = .ok (str "gemini-pro", str "v1") ∧
    get_best_available_model (.resp 200 (.ok ⟨none⟩))
      = .ok (str "gemini-1.5-flash", str "v1beta") ∧
    get_best_available_model
        (.resp 200 (.ok ⟨some [⟨str "models/other-model", some [str "generateContent"]⟩]⟩))
      = .ok (str "gemini-1.5-flash", str "v1beta") ∧
    get_best_available_model (.resp 200 (.error (str "bad json"))) = .error (str "bad json") :=
  ⟨resolver_fallback_ladder.1 500 _ (by decide),
   resolver_fallback_ladder.2.1 200 (by decide),
   resolver_fallback_ladder.2.2.1 200 _ (by decide) (by decide),
   resolver_fallback_ladder.2.2.2.2 200 _ (by decide)⟩

/-- C3: the preference walk takes the preferences in order, each one
selecting the first candidate that starts with it (paired with
`"v1beta"`), and moving on only when no candidate matches; in particular
a listing containing `"models/gemini-1.5-flash-001"` with generation
support resolves to `("gemini-1.5-flash-001", "v1beta")` by prefix match
on the second preference. -/
theorem resolver_prefix_walk :
    (∀ p ps candidates found,
        candidates.find? (fun c => strStartsWith c p) = some found →
        walkPrefs (p :: ps) candidates = some (found, str "v1beta")) ∧
    (∀ p ps candidates,
        candidates.find? (fun c => strStartsWith c p) = none →
        walkPrefs (p :: ps) candidates = walkPrefs ps candidates) ∧
    get_best_available_model
        (.resp 200 (.ok ⟨some [⟨str "models/gemini-1.5-flash-001", some [str "generateContent"]⟩]⟩))
      = .ok (str "gemini-1.5-flash-001", str "v1beta") := by
  refine ⟨?_, ?_, by rfl⟩
  · intro p ps candidates found hf
    simp [walkPrefs, hf]
  · intro p ps candidates hf
    simp [walkPrefs, hf]

/-- C3 witness: the walk evaluated on concrete preference and candidate
lists. -/
theorem resolver_prefix_walk_witness :
    walkPrefs [str "ab"] [str "abc"] = some (str "abc", str "v1beta") ∧
    walkPrefs [str "zz", str "ab"] [str "abc"] = walkPrefs [str "ab"] [str "abc"] :=
  ⟨resolver_prefix_walk.1 _ [] _ _ (by decide),
   resolver_prefix_walk.2.1 _ _ _ (by decide)⟩

/-- C4: on a parsed generation response without a body-level error object,
the extraction returns the text at candidates → first candidate →
content → parts → first part → text verbatim when every link is present,
and fails with the no-valid-text message when any link of the chain is
absent, including an empty candidate list, a missing content, missing or
empty parts, and a missing text. -/
theorem extract_chain_verbatim_or_empty (r : GeminiResponse) (h : r.error = none) :
    (∀ candidate rest content part prest text,
        r.candidates = some (candidate :: rest) →
        candidate.content = some content →
        content.parts = some (part :: prest) →
        part.text = some text →
        extractAnswerText r = .ok text) ∧
    (r.candidates = none →
        extractAnswerText r = .error (str "No valid response text found in API response.")) ∧
    (r.candidates = some [] →
        extractAnswerText r = .error (str "No valid response text found in API response.")) ∧
    (∀ candidate rest,
        r.candidates = some (candidate :: rest) → candidate.content = none →
        extractAnswerText r = .error (str "No valid response text found in API response.")) ∧
    (∀ candidate rest content,
        r.candidates = some (candidate :: rest) → candidate.content = some content →
        content.parts = none →
        extractAnswerText r = .error (str "No valid response text found in API response.")) ∧
    (∀ candidate rest content,
        r.candidates = some (candidate :: rest) → candidate.content = some content →
        content.parts = some [] →
        extractAnswerText r = .error (str "No valid response text found in API response.")) ∧
    (∀ candidate rest content part prest,
        r.candidates = some (candidate :: rest) → candidate.content = some content →
        content.parts = some (part :: prest) → part.text = none →
        extractAnswerText r = .error (str "No valid response text found in API response.")) := by
  refine ⟨?_, ?_, ?_, ?_, ?_, ?_, ?_⟩
  · intro candidate rest content part prest text h1 h2 h3 h4
    simp [extractAnswerText, h, h1, h2, h3, h4]
  · intro h1
    simp [extractAnswerText, h, h1]
  · intro h1
    simp [extractAnswerText, h, h1]
  · intro candidate rest h1 h2
    simp [extractAnswerText, h, h1, h2]
  · intro candidate rest content h1 h2 h3
    simp [extractAnswerText, h, h1, h2, h3]
  · intro candidate rest content h1 h2 h3
    simp [extractAnswerText, h, h1, h2, h3]
  · intro candidate rest content part prest h1 h2 h3 h4
    simp [extractAnswerText, h, h1, h2, h3, h4]

/-- C4 witness: extraction evaluated on a fully populated response and on
an empty candidate list. -/
theorem extract_chain_verbatim_or_empty_witness :
    extractAnswerText ⟨some [⟨some ⟨some [⟨some (str "hello")⟩]⟩⟩], none⟩ = .ok (str "hello") ∧
    extractAnswerText ⟨some [], none⟩
      = .error (str "No valid response text found in API response.") :=
  ⟨(extract_chain_verbatim_or_empty _ rfl).1 _ _ _ _ _ _ rfl rfl rfl rfl,
   (extract_chain_verbatim_or_empty _ rfl).2.2.1 rfl⟩

/-- C5: a body-level error object always wins over candidate extraction,
and a full `send_to_ai` call whose generation response has HTTP status
200 but carries `error.message = "quota exceeded"` fails with that
message. -/
theorem body_error_precedence :
    (∀ r e, r.error = some e →
        extractAnswerText r = .error (str "Gemini API Error: " ++ e.message)) ∧
    (send_to_ai (str "hi") (str "m")
        ⟨some (str "k"), .netErr (str "unused"),
         .resp 200 (some (str "body"))
           (.ok ⟨some [⟨some ⟨some [⟨some (str "fine")⟩]⟩⟩], some ⟨str "quota exceeded"⟩⟩)⟩).1
      = .error (str "Gemini API Error: quota exceeded") := by
  constructor
  · intro r e h
    simp [extractAnswerText, h]
  · rfl

/-- C5 witness: the precedence applied to a concrete response carrying an
error object. -/
theorem body_error_precedence_witness :
    extractAnswerText ⟨none, some ⟨str "quota exceeded"⟩⟩
      = .error (str "Gemini API Error: " ++ str "quota exceeded") :=
  body_error_precedence.1 _ _ rfl

/-- C6 counterexample: with the credential present and the generic alias,
a transport-level failure of the listing call already fails the send hard
(with the listing error, not the missing-credential message) before any
generation POST is issued — so the missing credential is not the only
hard failure ahead of the generation call. -/
theorem listing_failure_precedes_generation :
    send_to_ai (str "p") (str "gemini")
        ⟨some (str "k"), .netErr (str "connection refused"), .netErr (str "unused")⟩
      = (.error (str "connection refused"),
         [Request.get (str "https://generativelanguage.googleapis.com/v1beta/models?key="
           ++ trimStr (str "k"))]) :=
  rfl

/-- C6 amended: an absent credential environment variable makes `send_to_ai`
fail with the missing-credential message before any HTTP request is
issued (the request trace is empty), and it is the only hard failure
ahead of any network activity: whenever the credential is present, at
least one HTTP request is issued. -/
theorem missing_credential_no_request :
    (∀ prompt model L g, send_to_ai prompt model ⟨none, L, g⟩
        = (.error (str "GEMINI_API_KEY environment variable not set. Please check your .env file."),
           [])) ∧
    (∀ prompt model k L g, (send_to_ai prompt model ⟨some k, L, g⟩).2 ≠ []) := by
  constructor
  · intro prompt model L g
    rfl
  · intro prompt model k L g
    by_cases hm : model = str "gemini"
    · subst hm
      simp only [send_to_ai, if_pos rfl]
      cases get_best_available_model L with
      | error e => simp
      | ok pair =>
        obtain ⟨mn, av⟩ := pair
        cases g with
        | netErr msg => simp
        | resp status tb jb =>
          by_cases hs : statusIsSuccess status
          · cases jb <;> simp [hs]
          · simp [hs]
    · simp only [send_to_ai, if_neg hm]
      cases g with
      | netErr msg => simp
      | resp status tb jb =>
        by_cases hs : statusIsSuccess status
        · cases jb <;> simp [hs]
        · simp [hs]

/-- C6 witness: with a credential present, a concrete send issues at least
one request. -/
theorem missing_credential_no_request_witness :
    (send_to_ai (str "p") (str "m")
        ⟨some (str "k"), .netErr (str "x"), .netErr (str "y")⟩).2 ≠ [] :=
  missing_credential_no_request.2 _ _ _ _ _

/-- C9: when the model argument differs from the `"gemini"` sentinel, the
request trace is exactly one generation POST to the `"v1beta"` URL built
from the argument itself — no listing GET — and the whole outcome is
independent of the listing oracle, so model discovery is never invoked. -/
theorem manual_override_no_discovery (prompt model k : Str)
    (L : ListingOutcome) (g : GenOutcome) (h : model ≠ str "gemini") :
    (send_to_ai prompt model ⟨some k, L, g⟩).2
      = [Request.post (str "https://generativelanguage.googleapis.com/" ++ str "v1beta"
          ++ str "/models/" ++ model ++ str ":generateContent?key=" ++ trimStr k)
          ⟨[⟨[⟨prompt⟩]⟩]⟩] ∧
    (∀ L2, send_to_ai prompt model ⟨some k, L, g⟩ = send_to_ai prompt model ⟨some k, L2, g⟩) := by
  constructor
  · simp only [send_to_ai, if_neg h]
    cases g with
    | netErr msg => simp
    | resp status tb jb =>
      by_cases hs : statusIsSuccess status
      · cases jb <;> simp [hs]
      · simp [hs]
  · intro L2
    simp only [send_to_ai, if_neg h]

/-- C9 witness: the manual-override trace evaluated at a concrete
non-sentinel model. -/
theorem manual_override_no_discovery_witness :
    (send_to_ai (str "p") (str "m")
        ⟨some (str "k"), .netErr (str "x"), .netErr (str "y")⟩).2
      = [Request.post (str "https://generativelanguage.googleapis.com/" ++ str "v1beta"
          ++ str "/models/" ++ str "m" ++ str ":generateContent?key=" ++ trimStr (str "k"))
          ⟨[⟨[⟨str "p"⟩]⟩]⟩] :=
  (manual_override_no_discovery _ _ _ _ _ (by decide)).1

/-- C10: the credential is trimmed before being used in request URLs — the
listing GET's URL always carries the trimmed key — and a whitespace-only
credential passes the presence check: trimming turns it into the empty
string, and the send proceeds to a generation POST whose URL ends in an
empty `key=`, returning the answer instead of the missing-credential
failure. -/
theorem credential_trimmed_in_urls :
    (∀ prompt k L g, (send_to_ai prompt (str "gemini") ⟨some k, L, g⟩).2.head?
        = some (Request.get (str "https://generativelanguage.googleapis.com/v1beta/models?key="
            ++ trimStr k))) ∧
    trimStr (str "   ") = str "" ∧
    send_to_ai (str "p") (str "m")
        ⟨some (str "   "), .netErr (str "unused"),
         .resp 200 none (.ok ⟨some [⟨some ⟨some [⟨some (str "ok")⟩]⟩⟩], none⟩)⟩
      = (.ok (str "ok"),
         [Request.post
           (str "https://generativelanguage.googleapis.com/v1beta/models/m:generateContent?key=")
           ⟨[⟨[⟨str "p"⟩]⟩]⟩]) := by
  refine ⟨?_, by rfl, by rfl⟩
  intro prompt k L g
  simp only [send_to_ai, if_pos rfl]
  cases get_best_available_model L with
  | error e => simp
  | ok pair =>
    obtain ⟨mn, av⟩ := pair
    cases g with
    | netErr msg => simp
    | resp status tb jb =>
      by_cases hs : statusIsSuccess status
      · cases jb <;> simp [hs]
      · simp [hs]

end Strratumm
